import Mathlib

/-!
Shallow embedding of the persistence adapter in src/db/schema.ts
(SQLiteDrizzleAdapter) of the qwik-cf-cms repository.

The store is modelled as four lists of rows (insertion order = rowid
order, which is the order an unordered SQLite select returns rows in).
JavaScript distinguishes three result states for a row-returning call:
a row, null, and undefined; the type JsVal keeps that distinction,
since the adapter mixes bare .get() (undefined on no row) with
.get() ?? null.

Nullable table columns are Option values in stored rows (a relational
store has null but no undefined).
-/

/-- Result value of a JavaScript expression that may be a row, null, or
undefined. .undefined models the undefined returned by a drizzle .get() when
no row matches; .null models an explicit null (e.g. from x ?? null). -/
inductive JsVal (α : Type) : Type where
  | undefined : JsVal α
  | null : JsVal α
  | val : α → JsVal α
deriving Repr, DecidableEq

namespace JsVal

/-- Conversion of a drizzle .get() result (a row or undefined, never null)
into a JsVal. -/
def jsGet {α : Type} : Option α → JsVal α
  | some a => .val a
  | none => .undefined

/-- The JavaScript expression x ?? null: nullish values collapse to null. -/
def orNull {α : Type} : JsVal α → JsVal α
  | .undefined => .null
  | .null => .null
  | .val a => .val a

/-- The JavaScript expression x ?? undefined: nullish values collapse to
undefined (used by linkAccount to normalize optional fields). -/
def orUndefined {α : Type} : JsVal α → JsVal α
  | .undefined => .undefined
  | .null => .undefined
  | .val a => .val a

/-- Reading a nullable column of a stored row into JavaScript: the store
yields the value or null, never undefined. -/
def ofColumn {α : Type} : Option α → JsVal α
  | some a => .val a
  | none => .null

end JsVal

/-- Row of the users table (schema.ts lines 13-19): id is the primary
key; name, emailVerified and image are nullable; email is not null.
Timestamps are integers (timestamp_ms mode). -/
structure User where
  id : String
  name : Option String
  email : String
  emailVerified : Option Int
  image : Option String
deriving Repr, DecidableEq

/-- Row of the accounts table (schema.ts lines 22-42): compound primary
key (provider, providerAccountId); userId references users.id with
onDelete cascade; the seven token/scope/state columns are nullable. -/
structure Account where
  userId : String
  type : String
  provider : String
  providerAccountId : String
  refresh_token : Option String
  access_token : Option String
  expires_at : Option Int
  token_type : Option String
  scope : Option String
  id_token : Option String
  session_state : Option String
deriving Repr, DecidableEq

/-- Row of the sessions table (schema.ts lines 45-51): sessionToken is the
primary key; userId references users.id with onDelete cascade. -/
structure Session where
  sessionToken : String
  userId : String
  expires : Int
deriving Repr, DecidableEq

/-- Row of the verificationToken table (schema.ts lines 54-64): compound
primary key (identifier, token). -/
structure VerificationToken where
  identifier : String
  token : String
  expires : Int
deriving Repr, DecidableEq

/-- The relational store: the four tables touched by the adapter, each as
a list of rows in insertion (rowid) order. -/
structure DB where
  users : List User
  accounts : List Account
  sessions : List Session
  verificationTokens : List VerificationToken
deriving Repr, DecidableEq

/-- The empty store. -/
def DB.empty : DB := ⟨[], [], [], []⟩

/-- Input to createUser: the fields of a user row, with the id optional
since a caller may or may not supply one (the code spreads the input and
then overwrites id). -/
structure CreateUserInput where
  id : Option String
  name : Option String
  email : String
  emailVerified : Option Int
  image : Option String
deriving Repr, DecidableEq

/-- Input to updateUser: a partial user row. The outer Option marks
whether the field is supplied; for nullable columns the inner Option is
the supplied value (possibly null). id is Option String: the runtime
guard in the code checks JavaScript falsiness, so undefined (none) and
the empty string are both rejected. -/
structure UpdateUserInput where
  id : Option String
  name : Option (Option String)
  email : Option String
  emailVerified : Option (Option Int)
  image : Option (Option String)
deriving Repr, DecidableEq

/-- Input to updateSession: sessionToken selects the row; the other
fields are optionally supplied updates. -/
structure UpdateSessionInput where
  sessionToken : String
  userId : Option String
  expires : Option Int
deriving Repr, DecidableEq

/-- Account as returned by linkAccount to the authentication layer:
required fields unchanged, each optional field a JsVal that the
normalization maps away from null. -/
structure AdapterAccountOut where
  userId : String
  type : String
  provider : String
  providerAccountId : String
  refresh_token : JsVal String
  access_token : JsVal String
  expires_at : JsVal Int
  token_type : JsVal String
  scope : JsVal String
  id_token : JsVal String
  session_state : JsVal String
deriving Repr, DecidableEq

/-- A store-level failure of a drizzle statement. noRowMatched models a
driver that raises when a returning set is empty (the D1 driver's
D1_NORESULTS); fault models any other store error (connectivity,
constraint violation, ...). -/
inductive StoreFailure : Type where
  | noRowMatched : StoreFailure
  | fault : String → StoreFailure
deriving Repr, DecidableEq

namespace Adapter

/-- createUser (schema.ts lines 75-81): insert
values(\x7b ...data, id: crypto.randomUUID() \x7d) returning get. The
generated uuid is passed in as genId; the id property written after the
spread always wins, so the row id is genId whatever data.id is. -/
def createUser (genId : String) (data : CreateUserInput) (db : DB) :
    DB × User :=
  let row : User :=
    { id := genId, name := data.name, email := data.email,
      emailVerified := data.emailVerified, image := data.image }
  ({ db with users := db.users ++ [row] }, row)

/-- getUser (schema.ts lines 82-84): select from users where id = data,
get() ?? null. -/
def getUser (i : String) (db : DB) : JsVal User :=
  JsVal.orNull (JsVal.jsGet (db.users.find? (fun u => u.id == i)))

/-- getUserByEmail (schema.ts lines 85-89): select from users where
email = data, get() ?? null. -/
def getUserByEmail (em : String) (db : DB) : JsVal User :=
  JsVal.orNull (JsVal.jsGet (db.users.find? (fun u => u.email == em)))

/-- createSession (schema.ts lines 90-92): insert values(data)
returning get. -/
def createSession (data : Session) (db : DB) : DB × Session :=
  ({ db with sessions := db.sessions ++ [data] }, data)

/-- getSessionAndUser (schema.ts lines 93-105): select from sessions
where sessionToken = data inner join users on users.id = sessions.userId,
get() ?? null. -/
def getSessionAndUser (tok : String) (db : DB) : JsVal (Session × User) :=
  JsVal.orNull (JsVal.jsGet (do
    let s ← db.sessions.find? (fun s => s.sessionToken == tok)
    let u ← db.users.find? (fun u => u.id == s.userId)
    pure (s, u)))

/-- JavaScript falsiness of data.id in updateUser's guard: undefined and
the empty string are falsy. -/
def falsyId : Option String → Bool
  | none => true
  | some s => s == ""

/-- Application of set(data) to one user row: every supplied field is
overwritten (including id, which the update sets to itself since the
where clause matched it). -/
def applyUserUpdate (d : UpdateUserInput) (u : User) : User :=
  { id := d.id.getD u.id,
    name := d.name.getD u.name,
    email := d.email.getD u.email,
    emailVerified := d.emailVerified.getD u.emailVerified,
    image := d.image.getD u.image }

/-- updateUser (schema.ts lines 106-117): if (!data.id) throw
"No user id."; else update users set data where id = data.id
returning get (no ?? null, so no row matched gives undefined). -/
def updateUser (d : UpdateUserInput) (db : DB) :
    Except String (DB × JsVal User) :=
  if falsyId d.id then
    .error "No user id."
  else
    let i := d.id.getD ""
    .ok
      ({ db with
         users := db.users.map
           (fun u => if u.id == i then applyUserUpdate d u else u) },
       JsVal.jsGet
         ((db.users.find? (fun u => u.id == i)).map (applyUserUpdate d)))

/-- Application of set(data) to one session row. -/
def applySessionUpdate (d : UpdateSessionInput) (s : Session) : Session :=
  { sessionToken := d.sessionToken,
    userId := d.userId.getD s.userId,
    expires := d.expires.getD s.expires }

/-- updateSession (schema.ts lines 118-125): update sessions set data
where sessionToken = data.sessionToken returning get (no ?? null). -/
def updateSession (d : UpdateSessionInput) (db : DB) :
    DB × JsVal Session :=
  ({ db with
     sessions := db.sessions.map
       (fun s => if s.sessionToken == d.sessionToken
                 then applySessionUpdate d s else s) },
   JsVal.jsGet
     ((db.sessions.find? (fun s => s.sessionToken == d.sessionToken)).map
       (applySessionUpdate d)))

/-- The pure mapping linkAccount applies after the store write: each
optional column value coalesced with undefined (null becomes absent),
required fields copied unchanged (schema.ts lines 133-143). -/
def normalizeAccount (a : Account) : AdapterAccountOut :=
  { userId := a.userId, type := a.type, provider := a.provider,
    providerAccountId := a.providerAccountId,
    refresh_token := JsVal.orUndefined (JsVal.ofColumn a.refresh_token),
    access_token := JsVal.orUndefined (JsVal.ofColumn a.access_token),
    expires_at := JsVal.orUndefined (JsVal.ofColumn a.expires_at),
    token_type := JsVal.orUndefined (JsVal.ofColumn a.token_type),
    scope := JsVal.orUndefined (JsVal.ofColumn a.scope),
    id_token := JsVal.orUndefined (JsVal.ofColumn a.id_token),
    session_state := JsVal.orUndefined (JsVal.ofColumn a.session_state) }

/-- linkAccount (schema.ts lines 126-146): insert values(rawAccount)
returning get, then the pure normalization of the inserted row. -/
def linkAccount (rawAccount : Account) (db : DB) :
    DB × AdapterAccountOut :=
  ({ db with accounts := db.accounts ++ [rawAccount] },
   normalizeAccount rawAccount)

/-- getUserByAccount (schema.ts lines 147-161): select from accounts
left join users on users.id = accounts.userId where provider and
providerAccountId match, get(); then results?.users ?? null: undefined
result and null users column both give null. -/
def getUserByAccount (prov paid : String) (db : DB) : JsVal User :=
  match db.accounts.find?
      (fun a => a.provider == prov && a.providerAccountId == paid) with
  | none => .null
  | some a =>
    match db.users.find? (fun u => u.id == a.userId) with
    | none => .null
    | some u => .val u

/-- deleteSession (schema.ts lines 162-170): delete from sessions where
sessionToken matches returning get() ?? null. -/
def deleteSession (tok : String) (db : DB) : DB × JsVal Session :=
  ({ db with
     sessions := db.sessions.filter (fun s => !(s.sessionToken == tok)) },
   JsVal.orNull
     (JsVal.jsGet
       ((db.sessions.filter (fun s => s.sessionToken == tok)).head?)))

/-- createVerificationToken (schema.ts lines 171-173): insert
values(token) returning get. -/
def createVerificationToken (data : VerificationToken) (db : DB) :
    DB × VerificationToken :=
  ({ db with verificationTokens := db.verificationTokens ++ [data] }, data)

/-- Store-level effect of the delete statement inside useVerificationToken
(schema.ts lines 176-187): delete from verificationToken where identifier
and token match, returning get() ?? null. -/
def useVerificationTokenDB (identifier token : String) (db : DB) :
    DB × JsVal VerificationToken :=
  ({ db with
     verificationTokens := db.verificationTokens.filter
       (fun v => !(v.identifier == identifier && v.token == token)) },
   JsVal.orNull
     (JsVal.jsGet
       ((db.verificationTokens.filter
          (fun v => v.identifier == identifier && v.token == token)).head?)))

/-- useVerificationToken error layer (schema.ts lines 174-191): the whole
statement runs inside try/catch; a successful statement result passes
through (?? null applied), any raised store failure is replaced by the
single error "No verification token found.". The argument is the outcome
of the underlying statement: ok with the ?? null not yet applied, or a
StoreFailure the driver raised. -/
def useVerificationToken
    (r : Except StoreFailure (JsVal VerificationToken)) :
    Except String (JsVal VerificationToken) :=
  match r with
  | .ok v => .ok (JsVal.orNull v)
  | .error _ => .error "No verification token found."

/-- deleteUser (schema.ts lines 192-194): delete from users where id
matches returning get (no ?? null). The sessions and accounts rows of
the deleted user disappear too, through the onDelete cascade the schema
declares on their userId references (schema.ts lines 25-27 and 47-49). -/
def deleteUser (i : String) (db : DB) : DB × JsVal User :=
  ({ users := db.users.filter (fun u => !(u.id == i)),
     accounts := db.accounts.filter (fun a => !(a.userId == i)),
     sessions := db.sessions.filter (fun s => !(s.userId == i)),
     verificationTokens := db.verificationTokens },
   JsVal.jsGet ((db.users.filter (fun u => u.id == i)).head?))

/-- unlinkAccount (schema.ts lines 195-207): delete from accounts where
providerAccountId and provider match, run(); returns undefined. -/
def unlinkAccount (prov paid : String) (db : DB) : DB × JsVal Unit :=
  ({ db with
     accounts := db.accounts.filter
       (fun a => !(a.providerAccountId == paid && a.provider == prov)) },
   JsVal.undefined)

end Adapter

/-- Concrete user row used by witnesses. -/
def uW : User := ⟨"u1", none, "a@b.com", none, none⟩

/-- Store holding exactly the user uW. -/
def dbW : DB := ⟨[uW], [], [], []⟩

/-- Concrete updateUser input addressing uW. -/
def updW : UpdateUserInput := ⟨some "u1", none, some "new@b.com", none, none⟩

/-- Concrete verification token used by witnesses. -/
def vtW : VerificationToken := ⟨"x@y.com", "abc", 1000⟩

/-- Store holding exactly the verification token vtW. -/
def dbVtW : DB := ⟨[], [], [], [vtW]⟩

/-- Concrete session row owned by uW. -/
def sW : Session := ⟨"tok1", "u1", 2000⟩

/-- Store holding uW and its session sW. -/
def dbSW : DB := ⟨[uW], [], [sW], []⟩

/-- Concrete account row owned by uW, with one optional field set. -/
def acctW : Account :=
  ⟨"u1", "oauth", "github", "123", none, some "at", none, none, none,
   none, none⟩

/-- Store holding uW and its account acctW. -/
def dbAW : DB := ⟨[uW], [acctW], [], []⟩

/-- User row whose id is the empty string. -/
def uEmptyW : User := ⟨"", none, "a@b.com", none, none⟩

/-- Store holding exactly the empty-id user uEmptyW. -/
def dbEmptyIdW : DB := ⟨[uEmptyW], [], [], []⟩

/-- Concrete updateUser input whose id is the empty string. -/
def updEmptyIdW : UpdateUserInput := ⟨some "", none, some "x@y.com", none, none⟩

theorem filter_not_then_filter {α : Type} (p : α → Bool) (l : List α) :
    (l.filter (fun x => !(p x))).filter p = [] := by
  induction l with
  | nil => rfl
  | cons a t ih =>
    cases ha : p a with
    | true => simp [List.filter_cons, ha, ih]
    | false => simp [List.filter_cons, ha, ih]

theorem all_holds_after_filter {α : Type} (p : α → Bool) (l : List α) :
    (l.filter p).all p = true := by
  induction l with
  | nil => rfl
  | cons a t ih =>
    cases ha : p a with
    | true => simp [List.filter_cons, ha, ih]
    | false => simp [List.filter_cons, ha, ih]

theorem find?_unique_eq_some {α : Type} (p : α → Bool) (l : List α) (a : α)
    (hmem : a ∈ l) (hp : p a = true)
    (huniq : ∀ b ∈ l, p b = true → b = a) :
    l.find? p = some a := by
  induction l with
  | nil => cases hmem
  | cons x t ih =>
    cases hx : p x with
    | true =>
      have hxa : x = a := huniq x (List.mem_cons_self x t) hx
      subst hxa
      simp [List.find?_cons, hx]
    | false =>
      have hmem2 : a ∈ t := by
        rcases List.mem_cons.mp hmem with h | h
        · subst h; rw [hp] at hx; cases hx
        · exact h
      have huniq2 : ∀ b ∈ t, p b = true → b = a :=
        fun b hb => huniq b (List.mem_cons_of_mem _ hb)
      simpa [List.find?_cons, hx] using ih hmem2 huniq2

/-- C1 counterexample: the claim says that when the creation input
supplies an id, the created row carries the supplied id; but the code
writes id: crypto.randomUUID() after spreading the input, so the
generated id always wins. With supplied id "user-1" and generated id
"gen-1", the created row's id is "gen-1", not "user-1". -/
theorem createUser_supplied_id_counterexample :
    (⟨some "user-1", none, "a@b.com", none, none⟩ : CreateUserInput).id
      = some "user-1"
    ∧ (Adapter.createUser "gen-1"
        ⟨some "user-1", none, "a@b.com", none, none⟩ DB.empty).2.id
      ≠ "user-1"
    ∧ (Adapter.createUser "gen-1"
        ⟨some "user-1", none, "a@b.com", none, none⟩ DB.empty).2.id
      = "gen-1" := by
  refine ⟨rfl, ?_, rfl⟩
  decide

/-- C1 (amended): createUser always inserts a new User row whose id is
the freshly generated identifier, overriding any supplied id; it returns
the created row, and when the generated identifier is previously unused
the new store holds exactly one row with that id. -/
theorem createUser_spec (genId : String) (data : CreateUserInput) (db : DB)
    (h : ∀ u ∈ db.users, u.id ≠ genId) :
    (Adapter.createUser genId data db).2.id = genId
    ∧ (Adapter.createUser genId data db).1.users
      = db.users ++ [(Adapter.createUser genId data db).2]
    ∧ ((Adapter.createUser genId data db).1.users.filter
        (fun u => u.id == genId)).length = 1 := by
  refine ⟨rfl, rfl, ?_⟩
  have hfilter : db.users.filter (fun u => u.id == genId) = [] := by
    rw [List.filter_eq_nil_iff]
    intro u hu
    simpa using h u hu
  simp [Adapter.createUser, List.filter_append, hfilter]

/-- C1 witness: the amended theorem applied to a concrete creation input
in the empty store. -/
theorem createUser_spec_witness :
    (Adapter.createUser "gen-1" ⟨none, none, "a@b.com", none, none⟩
      DB.empty).2.id = "gen-1" :=
  (createUser_spec "gen-1" ⟨none, none, "a@b.com", none, none⟩ DB.empty
    (by simp [DB.empty])).1

/-- C2: every store-level failure of the underlying delete statement —
the no-row-matched failure of a driver that raises on an empty returning
set as well as any other fault — surfaces as the single error
"No verification token found.", so an expected absence and a genuine
store fault are indistinguishable to the caller. -/
theorem useVerificationToken_conflates_failures (e : StoreFailure) :
    Adapter.useVerificationToken (Except.error e)
      = Except.error "No verification token found."
    ∧ Adapter.useVerificationToken (Except.error StoreFailure.noRowMatched)
      = Adapter.useVerificationToken (Except.error e) := by
  exact ⟨rfl, rfl⟩

/-- C3: a verification token is consumed at most once: when a first call
of useVerificationToken on the store returns the token row, a second call
with the same pair on the resulting store returns null (not found), not
the row again. -/
theorem useVerificationToken_single_use (identifier token : String)
    (db : DB) (v : VerificationToken)
    (h : (Adapter.useVerificationTokenDB identifier token db).2
      = JsVal.val v) :
    (Adapter.useVerificationTokenDB identifier token
      (Adapter.useVerificationTokenDB identifier token db).1).2
      = JsVal.null
    ∧ (Adapter.useVerificationTokenDB identifier token
      (Adapter.useVerificationTokenDB identifier token db).1).2
      ≠ JsVal.val v := by
  have key :
      ((db.verificationTokens.filter
        (fun x => !(x.identifier == identifier && x.token == token))).filter
        (fun x => x.identifier == identifier && x.token == token)) = [] :=
    filter_not_then_filter _ _
  have hnull :
      (Adapter.useVerificationTokenDB identifier token
        (Adapter.useVerificationTokenDB identifier token db).1).2
        = JsVal.null := by
    show JsVal.orNull (JsVal.jsGet
      (((db.verificationTokens.filter
          (fun x => !(x.identifier == identifier && x.token == token))).filter
        (fun x => x.identifier == identifier && x.token == token)).head?))
      = JsVal.null
    rw [key]
    rfl
  refine ⟨hnull, ?_⟩
  rw [hnull]
  simp

/-- C3 witness: the single-use theorem applied to a store holding exactly
the token ("x@y.com", "abc"). -/
theorem useVerificationToken_single_use_witness :
    (Adapter.useVerificationTokenDB "x@y.com" "abc"
      (Adapter.useVerificationTokenDB "x@y.com" "abc" dbVtW).1).2
      = JsVal.null :=
  (useVerificationToken_single_use "x@y.com" "abc" dbVtW vtW (by decide)).1

/-- C4: every single-row lookup among getUser, getUserByEmail,
getSessionAndUser, getUserByAccount and deleteSession returns the
explicit null result when zero rows match its predicate; each is a total
function of the store, so absence never raises an exception. -/
theorem lookups_return_null_on_absence
    (i em tok prov paid stok : String) (db : DB)
    (hu : ∀ u ∈ db.users, u.id ≠ i)
    (he : ∀ u ∈ db.users, u.email ≠ em)
    (hs : ∀ s ∈ db.sessions, s.sessionToken ≠ tok)
    (ha : ∀ a ∈ db.accounts,
      a.provider ≠ prov ∨ a.providerAccountId ≠ paid)
    (hd : ∀ s ∈ db.sessions, s.sessionToken ≠ stok) :
    Adapter.getUser i db = JsVal.null
    ∧ Adapter.getUserByEmail em db = JsVal.null
    ∧ Adapter.getSessionAndUser tok db = JsVal.null
    ∧ Adapter.getUserByAccount prov paid db = JsVal.null
    ∧ (Adapter.deleteSession stok db).2 = JsVal.null := by
  have h1 : db.users.find? (fun u => u.id == i) = none := by
    rw [List.find?_eq_none]
    intro u hu2
    simpa using hu u hu2
  have h2 : db.users.find? (fun u => u.email == em) = none := by
    rw [List.find?_eq_none]
    intro u hu2
    simpa using he u hu2
  have h3 : db.sessions.find? (fun s => s.sessionToken == tok) = none := by
    rw [List.find?_eq_none]
    intro s hs2
    simpa using hs s hs2
  have h4 : db.accounts.find?
      (fun a => a.provider == prov && a.providerAccountId == paid)
      = none := by
    rw [List.find?_eq_none]
    intro a ha2
    have hor := ha a ha2
    simp only [Bool.and_eq_true, beq_iff_eq, not_and]
    intro hp
    rcases hor with h | h
    · exact absurd hp h
    · exact h
  have h5 : db.sessions.filter (fun s => s.sessionToken == stok) = [] := by
    rw [List.filter_eq_nil_iff]
    intro s hs2
    simpa using hd s hs2
  refine ⟨?_, ?_, ?_, ?_, ?_⟩
  · simp [Adapter.getUser, h1, JsVal.jsGet, JsVal.orNull]
  · simp [Adapter.getUserByEmail, h2, JsVal.jsGet, JsVal.orNull]
  · simp [Adapter.getSessionAndUser, h3, JsVal.jsGet, JsVal.orNull]
  · simp [Adapter.getUserByAccount, h4]
  · show JsVal.orNull (JsVal.jsGet
      ((db.sessions.filter (fun s => s.sessionToken == stok)).head?))
      = JsVal.null
    rw [h5]
    rfl

/-- C4 witness: all five lookups applied to the empty store. -/
theorem lookups_return_null_on_absence_witness :
    Adapter.getUser "u1" DB.empty = JsVal.null
    ∧ Adapter.getUserByEmail "a@b.com" DB.empty = JsVal.null
    ∧ Adapter.getSessionAndUser "tok1" DB.empty = JsVal.null
    ∧ Adapter.getUserByAccount "github" "123" DB.empty = JsVal.null
    ∧ (Adapter.deleteSession "tok1" DB.empty).2 = JsVal.null :=
  lookups_return_null_on_absence "u1" "a@b.com" "tok1" "github" "123"
    "tok1" DB.empty (by simp [DB.empty]) (by simp [DB.empty])
    (by simp [DB.empty]) (by simp [DB.empty]) (by simp [DB.empty])

/-- C5 counterexample: the claim says every update input that supplies an
id updates the matching row and returns it; but the guard if (!data.id)
treats the empty string as missing, so an input whose id is "" raises
"No user id." even though a user row with id "" exists in the store. -/
theorem updateUser_empty_id_counterexample :
    updEmptyIdW.id = some ""
    ∧ uEmptyW ∈ dbEmptyIdW.users
    ∧ uEmptyW.id = ""
    ∧ Adapter.updateUser updEmptyIdW dbEmptyIdW
      = Except.error "No user id." := by
  refine ⟨rfl, ?_, rfl, ?_⟩
  · simp [dbEmptyIdW]
  · rfl

/-- C5 (amended): updateUser raises "No user id." and performs no store
operation whenever the input id is JavaScript-falsy, i.e. missing or the
empty string; for every input whose id is a non-empty string that matches
a stored User row, it updates that row's supplied fields and returns the
updated row. -/
theorem updateUser_spec (d : UpdateUserInput) (db : DB) :
    ((d.id = none ∨ d.id = some "") →
      Adapter.updateUser d db = Except.error "No user id.")
    ∧ (∀ i u, d.id = some i → i ≠ "" →
        db.users.find? (fun w => w.id == i) = some u →
        Adapter.updateUser d db =
          Except.ok
            ({ db with
               users := db.users.map
                 (fun w => if w.id == i then Adapter.applyUserUpdate d w
                           else w) },
             JsVal.val (Adapter.applyUserUpdate d u))) := by
  constructor
  · intro hfal
    have hf : Adapter.falsyId d.id = true := by
      rcases hfal with h | h <;> simp [Adapter.falsyId, h]
    simp [Adapter.updateUser, hf]
  · intro i u hid hne hfind
    have hf : Adapter.falsyId d.id = false := by
      rw [hid]
      simp [Adapter.falsyId, hne]
    rw [Adapter.updateUser, hf]
    simp only [Bool.false_eq_true, if_false, hid, Option.getD_some, hfind,
      Option.map_some]
    rfl

/-- C5 witness: the amended theorem applied to an input without an id in
the empty store, and to a concrete non-empty id matching the stored user
uW. -/
theorem updateUser_spec_witness :
    Adapter.updateUser ⟨none, none, none, none, none⟩ DB.empty
      = Except.error "No user id."
    ∧ Adapter.updateUser updW dbW
      = Except.ok
          (⟨[⟨"u1", none, "new@b.com", none, none⟩], [], [], []⟩,
           JsVal.val ⟨"u1", none, "new@b.com", none, none⟩) := by
  constructor
  · exact (updateUser_spec ⟨none, none, none, none, none⟩ DB.empty).1
      (Or.inl rfl)
  · rw [(updateUser_spec updW dbW).2 "u1" uW rfl (by decide) (by decide)]
    rfl

/-- C6: after deleteUser(id), no Session row and no Account row whose
userId equals that id remains in the store (and the user row itself is
gone): the deletion follows the onDelete cascade declared on the
sessions.userId and accounts.userId references. -/
theorem deleteUser_cascades (i : String) (db : DB) :
    ((Adapter.deleteUser i db).1.users.all (fun u => !(u.id == i))) = true
    ∧ ((Adapter.deleteUser i db).1.sessions.all
        (fun s => !(s.userId == i))) = true
    ∧ ((Adapter.deleteUser i db).1.accounts.all
        (fun a => !(a.userId == i))) = true :=
  ⟨all_holds_after_filter _ _, all_holds_after_filter _ _,
   all_holds_after_filter _ _⟩

/-- C7: getSessionAndUser returns the paired (session, user) exactly when
a Session with the token exists and its userId matches an existing User
(the inner join); when no session has the token, or the matching
session's userId has no user, it returns null. Uniqueness of the
sessionToken and user id keys is taken as a hypothesis, as both are
primary keys. -/
theorem getSessionAndUser_spec (tok : String) (db : DB) :
    (∀ s u, s ∈ db.sessions → s.sessionToken = tok →
      (∀ x ∈ db.sessions, x.sessionToken = tok → x = s) →
      u ∈ db.users → u.id = s.userId →
      (∀ x ∈ db.users, x.id = s.userId → x = u) →
      Adapter.getSessionAndUser tok db = JsVal.val (s, u))
    ∧ ((∀ s ∈ db.sessions, s.sessionToken ≠ tok) →
      Adapter.getSessionAndUser tok db = JsVal.null)
    ∧ (∀ s, s ∈ db.sessions → s.sessionToken = tok →
      (∀ x ∈ db.sessions, x.sessionToken = tok → x = s) →
      (∀ x ∈ db.users, x.id ≠ s.userId) →
      Adapter.getSessionAndUser tok db = JsVal.null) := by
  refine ⟨?_, ?_, ?_⟩
  · intro s u hsmem hstok hsuniq humem huid huniq
    have hfs : db.sessions.find? (fun x => x.sessionToken == tok)
        = some s :=
      find?_unique_eq_some _ _ _ hsmem (by simp [hstok])
        (fun b hb hpb => hsuniq b hb (by simpa using hpb))
    have hfu : db.users.find? (fun x => x.id == s.userId) = some u :=
      find?_unique_eq_some _ _ _ humem (by simp [huid])
        (fun b hb hpb => huniq b hb (by simpa using hpb))
    simp [Adapter.getSessionAndUser, hfs, hfu, JsVal.jsGet, JsVal.orNull]
  · intro hnone
    have hfs : db.sessions.find? (fun x => x.sessionToken == tok)
        = none := by
      rw [List.find?_eq_none]
      intro x hx
      simpa using hnone x hx
    simp [Adapter.getSessionAndUser, hfs, JsVal.jsGet, JsVal.orNull]
  · intro s hsmem hstok hsuniq hnouser
    have hfs : db.sessions.find? (fun x => x.sessionToken == tok)
        = some s :=
      find?_unique_eq_some _ _ _ hsmem (by simp [hstok])
        (fun b hb hpb => hsuniq b hb (by simpa using hpb))
    have hfu : db.users.find? (fun x => x.id == s.userId) = none := by
      rw [List.find?_eq_none]
      intro x hx
      simpa using hnouser x hx
    simp [Adapter.getSessionAndUser, hfs, hfu, JsVal.jsGet, JsVal.orNull]

/-- C7 witness: the join theorem applied to the store holding user uW and
its session sW, and to a token with no session. -/
theorem getSessionAndUser_spec_witness :
    Adapter.getSessionAndUser "tok1" dbSW = JsVal.val (sW, uW)
    ∧ Adapter.getSessionAndUser "other" dbSW = JsVal.null := by
  constructor
  · exact (getSessionAndUser_spec "tok1" dbSW).1 sW uW (by decide) rfl
      (by decide) (by decide) rfl (by decide)
  · exact (getSessionAndUser_spec "other" dbSW).2.1 (by decide)

/-- C8: linkAccount appends the account row to the store and returns the
pure normalization of the inserted row: required fields unchanged, and
each of the seven optional fields read from its nullable column and
coalesced with undefined, so a stored null surfaces as absent (undefined)
and a stored value surfaces unchanged. -/
theorem linkAccount_spec (data : Account) (db : DB) :
    (Adapter.linkAccount data db).1.accounts = db.accounts ++ [data]
    ∧ (Adapter.linkAccount data db).2 = Adapter.normalizeAccount data
    ∧ (Adapter.normalizeAccount data).userId = data.userId
    ∧ (Adapter.normalizeAccount data).type = data.type
    ∧ (Adapter.normalizeAccount data).provider = data.provider
    ∧ (Adapter.normalizeAccount data).providerAccountId
      = data.providerAccountId
    ∧ (Adapter.normalizeAccount data).refresh_token
      = JsVal.orUndefined (JsVal.ofColumn data.refresh_token)
    ∧ (Adapter.normalizeAccount data).access_token
      = JsVal.orUndefined (JsVal.ofColumn data.access_token)
    ∧ (Adapter.normalizeAccount data).expires_at
      = JsVal.orUndefined (JsVal.ofColumn data.expires_at)
    ∧ (Adapter.normalizeAccount data).token_type
      = JsVal.orUndefined (JsVal.ofColumn data.token_type)
    ∧ (Adapter.normalizeAccount data).scope
      = JsVal.orUndefined (JsVal.ofColumn data.scope)
    ∧ (Adapter.normalizeAccount data).id_token
      = JsVal.orUndefined (JsVal.ofColumn data.id_token)
    ∧ (Adapter.normalizeAccount data).session_state
      = JsVal.orUndefined (JsVal.ofColumn data.session_state)
    ∧ (∀ o : Option String, JsVal.orUndefined (JsVal.ofColumn o)
        = o.elim JsVal.undefined JsVal.val)
    ∧ (∀ o : Option Int, JsVal.orUndefined (JsVal.ofColumn o)
        = o.elim JsVal.undefined JsVal.val) := by
  refine ⟨rfl, rfl, rfl, rfl, rfl, rfl, rfl, rfl, rfl, rfl, rfl, rfl,
    rfl, ?_, ?_⟩
  · intro o
    cases o <;> rfl
  · intro o
    cases o <;> rfl

/-- C9: getUserByAccount returns the User referenced by the unique
Account row matching (provider, providerAccountId); it returns null when
no account matches (whatever other accounts exist, since the store is
arbitrary) and also, defensively, when the matching account's userId has
no joined user. Uniqueness of the compound account key and of user ids
is taken as a hypothesis, as both are primary keys. -/
theorem getUserByAccount_spec (prov paid : String) (db : DB) :
    ((∀ a ∈ db.accounts,
        a.provider ≠ prov ∨ a.providerAccountId ≠ paid) →
      Adapter.getUserByAccount prov paid db = JsVal.null)
    ∧ (∀ a, a ∈ db.accounts → a.provider = prov →
        a.providerAccountId = paid →
        (∀ x ∈ db.accounts, x.provider = prov →
          x.providerAccountId = paid → x = a) →
        ((∀ x ∈ db.users, x.id ≠ a.userId) →
          Adapter.getUserByAccount prov paid db = JsVal.null)
        ∧ (∀ u, u ∈ db.users → u.id = a.userId →
            (∀ x ∈ db.users, x.id = a.userId → x = u) →
            Adapter.getUserByAccount prov paid db = JsVal.val u)) := by
  constructor
  · intro hnone
    have hfa : db.accounts.find?
        (fun x => x.provider == prov && x.providerAccountId == paid)
        = none := by
      rw [List.find?_eq_none]
      intro x hx
      have hor := hnone x hx
      simp only [Bool.and_eq_true, beq_iff_eq, not_and]
      intro hp
      rcases hor with h | h
      · exact absurd hp h
      · exact h
    simp [Adapter.getUserByAccount, hfa]
  · intro a hamem hap hapid hauniq
    have hfa : db.accounts.find?
        (fun x => x.provider == prov && x.providerAccountId == paid)
        = some a :=
      find?_unique_eq_some _ _ _ hamem (by simp [hap, hapid])
        (fun b hb hpb => by
          have hb2 : b.provider = prov ∧ b.providerAccountId = paid := by
            simpa using hpb
          exact hauniq b hb hb2.1 hb2.2)
    constructor
    · intro hnou
      have hfu : db.users.find? (fun x => x.id == a.userId) = none := by
        rw [List.find?_eq_none]
        intro x hx
        simpa using hnou x hx
      simp [Adapter.getUserByAccount, hfa, hfu]
    · intro u humem huid huniq
      have hfu : db.users.find? (fun x => x.id == a.userId) = some u :=
        find?_unique_eq_some _ _ _ humem (by simp [huid])
          (fun b hb hpb => huniq b hb (by simpa using hpb))
      simp [Adapter.getUserByAccount, hfa, hfu]

/-- C9 witness: the account-join theorem applied to the store holding
user uW and its account acctW, and to a provider with no account. -/
theorem getUserByAccount_spec_witness :
    Adapter.getUserByAccount "github" "123" dbAW = JsVal.val uW
    ∧ Adapter.getUserByAccount "gitlab" "123" dbAW = JsVal.null := by
  constructor
  · exact ((getUserByAccount_spec "github" "123" dbAW).2 acctW
      (by decide) rfl rfl (by decide)).2 uW (by decide) rfl (by decide)
  · exact (getUserByAccount_spec "gitlab" "123" dbAW).1 (by decide)

/-- C10: deleteUser, updateUser and updateSession end in a bare
returning().get(), so when no row matches they return undefined, not the
explicit null that deleteSession's ?? null produces; deleteSession on the
same absence returns null. -/
theorem absent_row_update_delete_undefined (i stok : String)
    (d : UpdateUserInput) (ds : UpdateSessionInput) (db : DB) :
    ((∀ u ∈ db.users, u.id ≠ i) →
      (Adapter.deleteUser i db).2 = JsVal.undefined
      ∧ (Adapter.deleteUser i db).2 ≠ JsVal.null)
    ∧ (∀ j, d.id = some j → j ≠ "" → (∀ u ∈ db.users, u.id ≠ j) →
      Adapter.updateUser d db =
        Except.ok
          ({ db with
             users := db.users.map
               (fun w => if w.id == j then Adapter.applyUserUpdate d w
                         else w) },
           JsVal.undefined))
    ∧ ((∀ s ∈ db.sessions, s.sessionToken ≠ ds.sessionToken) →
      (Adapter.updateSession ds db).2 = JsVal.undefined)
    ∧ ((∀ s ∈ db.sessions, s.sessionToken ≠ stok) →
      (Adapter.deleteSession stok db).2 = JsVal.null) := by
  refine ⟨?_, ?_, ?_, ?_⟩
  · intro hu
    have hflt : db.users.filter (fun u => u.id == i) = [] := by
      rw [List.filter_eq_nil_iff]
      intro u hx
      simpa using hu u hx
    constructor
    · show JsVal.jsGet
        ((db.users.filter (fun u => u.id == i)).head?) = JsVal.undefined
      rw [hflt]
      rfl
    · show JsVal.jsGet
        ((db.users.filter (fun u => u.id == i)).head?) ≠ JsVal.null
      rw [hflt]
      simp [JsVal.jsGet]
  · intro j hid hne hu
    have hf : Adapter.falsyId d.id = false := by
      rw [hid]
      simp [Adapter.falsyId, hne]
    have hfind : db.users.find? (fun u => u.id == j) = none := by
      rw [List.find?_eq_none]
      intro u hx
      simpa using hu u hx
    rw [Adapter.updateUser, hf]
    simp only [Bool.false_eq_true, if_false, hid, Option.getD_some, hfind,
      Option.map_none]
    rfl
  · intro hs
    have hfind : db.sessions.find?
        (fun s => s.sessionToken == ds.sessionToken) = none := by
      rw [List.find?_eq_none]
      intro s hx
      simpa using hs s hx
    show JsVal.jsGet
      ((db.sessions.find?
        (fun s => s.sessionToken == ds.sessionToken)).map
        (Adapter.applySessionUpdate ds)) = JsVal.undefined
    rw [hfind]
    rfl
  · intro hs
    have hflt : db.sessions.filter (fun s => s.sessionToken == stok)
        = [] := by
      rw [List.filter_eq_nil_iff]
      intro s hx
      simpa using hs s hx
    show JsVal.orNull (JsVal.jsGet
      ((db.sessions.filter (fun s => s.sessionToken == stok)).head?))
      = JsVal.null
    rw [hflt]
    rfl

/-- C10 witness: the undefined-versus-null theorem applied to the empty
store. -/
theorem absent_row_update_delete_undefined_witness :
    (Adapter.deleteUser "u1" DB.empty).2 = JsVal.undefined
    ∧ Adapter.updateUser ⟨some "u1", none, none, none, none⟩ DB.empty
      = Except.ok (DB.empty, JsVal.undefined)
    ∧ (Adapter.updateSession ⟨"tok1", none, none⟩ DB.empty).2
      = JsVal.undefined
    ∧ (Adapter.deleteSession "tok1" DB.empty).2 = JsVal.null := by
  have h := absent_row_update_delete_undefined "u1" "tok1"
    ⟨some "u1", none, none, none, none⟩ ⟨"tok1", none, none⟩ DB.empty
  refine ⟨(h.1 (by decide)).1, ?_, h.2.2.1 (by decide),
    h.2.2.2 (by decide)⟩
  rw [h.2.1 "u1" rfl (by decide) (by decide)]
  rfl
